import Mathlib

/-!
Verification of the todo frontend's data-synchronization layer: the todo
service (`src/services/todoService.js`), the API client interceptors
(`src/services/apiService.js`), the `useTodos` hook's client-side
filtering/pagination, the date helpers (`src/utils/dateUtils.js`) and the
`Pagination` component's visible-page computation.

JavaScript strings are modelled by `String`, with the JS operations that the
code uses carried out on the underlying character list (`String.data`):
`toLowerCase` is `List.map Char.toLower`, `includes` is the decidable
`List.IsInfix`, `trim` drops whitespace from both ends of the character list,
`endsWith 'Z'` inspects the last character, and `length` is the character
count.  Absent (`undefined`/`null`) JS values are modelled with `Option`.
-/

/-- A raw todo as the FastAPI backend returns it from `GET /todos`:
`description`, `completed` and the timestamps may be absent. -/
structure RawTodo where
  id : Nat
  title : String
  description : Option String := none
  completed : Option Bool := none
  created_at : Option String := none
  updated_at : Option String := none
deriving Repr, DecidableEq

/-- The input object a caller hands to `todoService.createTodo` /
`updateTodo` / `validateTodo`; any field may be absent. -/
structure TodoInput where
  title : Option String := none
  description : Option String := none
  completed : Option Bool := none
deriving Repr, DecidableEq

/-- The JSON body the todo service sends to the backend on create/update:
`{title, description, completed}` (`title` is forwarded as-is, so it is
absent when the caller omitted it). -/
structure TodoPayload where
  title : Option String
  description : String
  completed : Bool
deriving Repr, DecidableEq

/-- HTTP method of a request issued through `apiService`. -/
inductive Method
  | get | post | put | patch | delete
deriving Repr, DecidableEq

/-- A request issued through `apiService`: method, endpoint url, and the
JSON body for `post`/`put`. -/
structure Request where
  method : Method
  url : String
  body : Option TodoPayload := none
deriving Repr, DecidableEq

/-- `todoService.createTodo`'s payload:
`{title: todo.title, description: todo.description || '', completed: false}`. -/
def createTodoPayload (todo : TodoInput) : TodoPayload :=
  { title := todo.title
    description := todo.description.getD ""
    completed := false }

/-- `todoService.updateTodo`'s payload: `{title, description: todo.description
|| '', completed: todo.completed !== undefined ? todo.completed : false}`. -/
def updateTodoPayload (todo : TodoInput) : TodoPayload :=
  { title := todo.title
    description := todo.description.getD ""
    completed := todo.completed.getD false }

/-- The body `todoService.toggleTodo` builds from the todo it just fetched:
`{title: todo.title, description: todo.description || '',
completed: !todo.completed}`. -/
def togglePayload (todo : RawTodo) : TodoPayload :=
  { title := some todo.title
    description := todo.description.getD ""
    completed := !(todo.completed.getD false) }

/-- The requests `todoService.createTodo` issues: one `POST /todos`. -/
def createTodoRequests (todo : TodoInput) : List Request :=
  [{ method := .post, url := "/todos", body := some (createTodoPayload todo) }]

/-- The requests `todoService.updateTodo` issues: one `PUT /todos/{id}`. -/
def updateTodoRequests (id : Nat) (todo : TodoInput) : List Request :=
  [{ method := .put, url := "/todos/" ++ toString id
     body := some (updateTodoPayload todo) }]

/-- The requests `todoService.toggleTodo` issues: `GET /todos/{id}` to read
the current todo, then `PUT /todos/{id}` with the completed flag negated.
`current` is the todo the `GET` returned. -/
def toggleTodoRequests (id : Nat) (current : RawTodo) : List Request :=
  [{ method := .get, url := "/todos/" ++ toString id },
   { method := .put, url := "/todos/" ++ toString id
     body := some (togglePayload current) }]

/-- The requests `todoService.deleteTodo` issues: one `DELETE /todos/{id}`. -/
def deleteTodoRequests (id : Nat) : List Request :=
  [{ method := .delete, url := "/todos/" ++ toString id }]

/-- The requests the alternative `TodoService.toggleTodo` (the variant that
relies on a dedicated backend route) issues: one `PATCH /todos/{id}/toggle`
with no body. -/
def toggleTodoAltRequests (id : Nat) : List Request :=
  [{ method := .patch, url := "/todos/" ++ toString id ++ "/toggle" }]

/-- JS truthiness of a possibly-absent string: `undefined` and `''` are
falsy, every other string is truthy. -/
def jsTruthy : Option String → Bool
  | none => false
  | some s => s ≠ ""

/-- JS `String.prototype.trim` on the character list: drop whitespace from
both ends. -/
def jsTrim (s : String) : List Char :=
  ((s.data.dropWhile Char.isWhitespace).reverse.dropWhile Char.isWhitespace).reverse

/-- The error object `todoService.validateTodo` builds: at most one message
per field. -/
structure VErrors where
  title : Option String := none
  description : Option String := none
deriving Repr, DecidableEq

/-- Result of `todoService.validateTodo`: `{isValid, errors}`. -/
structure ValResult where
  isValid : Bool
  errors : VErrors
deriving Repr, DecidableEq

/-- `todoService.validateTodo`: title required and non-blank, title at most
255 characters, description (when truthy) at most 1024 characters;
`isValid` iff the errors object stayed empty. -/
def validateTodo (todoData : TodoInput) : ValResult :=
  let errors : VErrors := {}
  let errors :=
    if !(jsTruthy todoData.title) || (jsTrim (todoData.title.getD "")).length = 0 then
      { errors with title := some "El título es requerido" }
    else errors
  let errors :=
    if jsTruthy todoData.title && decide ((todoData.title.getD "").data.length > 255) then
      { errors with title := some "El título no puede exceder 255 caracteres" }
    else errors
  let errors :=
    if jsTruthy todoData.description &&
        decide ((todoData.description.getD "").data.length > 1024) then
      { errors with description := some "La descripción no puede exceder 1024 caracteres" }
    else errors
  { isValid := errors.title.isNone && errors.description.isNone, errors := errors }

/-- A todo after `useTodos.fetchTodos` transformed the FastAPI shape into the
frontend shape (`description`/`completed` defaulted, timestamps filled). -/
structure Todo where
  id : Nat
  title : String
  description : String
  completed : Bool
  createdAt : String
  updatedAt : String
deriving Repr, DecidableEq

/-- The transformation `fetchTodos` applies to each backend todo.  `now` is
the `new Date().toISOString()` fallback used when a timestamp is absent. -/
def transformTodo (now : String) (t : RawTodo) : Todo :=
  { id := t.id
    title := t.title
    description := t.description.getD ""
    completed := t.completed.getD false
    createdAt := t.created_at.getD now
    updatedAt := t.updated_at.getD now }

/-- The hook's filter state: `{status: 'all'|'completed'|'pending', search}`. -/
structure Filters where
  status : String
  search : String
deriving Repr, DecidableEq

/-- JS `a.includes(b)` on strings: `b` is a contiguous substring of `a`. -/
def jsIncludes (s sub : String) : Bool :=
  decide (sub.data <:+: s.data)

/-- JS `s.toLowerCase()` on the character list. -/
def jsLower (s : String) : List Char :=
  s.data.map Char.toLower

/-- The status filter of `fetchTodos`: skipped for `'all'`, otherwise keeps
completed todos for `'completed'`, pending ones for `'pending'`, and
everything for any other value. -/
def statusFilterCode (status : String) (todos : List Todo) : List Todo :=
  if status ≠ "all" then
    todos.filter fun todo =>
      if status = "completed" then todo.completed
      else if status = "pending" then !todo.completed
      else true
  else todos

/-- The search filter of `fetchTodos`: skipped when the search string is
falsy (empty); otherwise keeps todos whose lowercased title, or (when the
description is truthy) lowercased description, includes the lowercased
search term. -/
def searchFilterCode (search : String) (todos : List Todo) : List Todo :=
  if search ≠ "" then
    let searchTerm := search.data.map Char.toLower
    todos.filter fun todo =>
      decide (searchTerm <:+: jsLower todo.title) ||
        (todo.description ≠ "" && decide (searchTerm <:+: jsLower todo.description))
  else todos

/-- The displayed page, total and page count that `fetchTodos` derives from
the transformed todo list: status filter, then search filter, then the
slice `[(currentPage-1)*pageSize, currentPage*pageSize)` and
`Math.ceil(length / pageSize)`. -/
def fetchTodosCompute (todos : List Todo) (filters : Filters)
    (currentPage pageSize : Nat) : List Todo × Nat × Nat :=
  let filteredTodos := searchFilterCode filters.search (statusFilterCode filters.status todos)
  let start := (currentPage - 1) * pageSize
  let paginatedTodos := (filteredTodos.drop start).take pageSize
  let calculatedTotalPages := (filteredTodos.length + pageSize - 1) / pageSize
  (paginatedTodos, filteredTodos.length, calculatedTotalPages)

/-- One FastAPI validation error inside a 422 response's `detail` array:
`{loc, msg}` with `loc` possibly absent. -/
structure ValErr where
  loc : Option (List String) := none
  msg : String
deriving Repr, DecidableEq

/-- The `detail` field of a FastAPI error body: either an array of
validation errors or a plain string. -/
abbrev FastDetail := List ValErr ⊕ String

/-- The body of an HTTP error response as the interceptor reads it:
`data.detail` and `data.message`, each possibly absent. -/
structure ErrData where
  detail : Option FastDetail := none
  message : Option String := none
deriving Repr, DecidableEq

/-- The normalized error object the `apiService` response interceptor
rejects with (built up from `{message: 'Error desconocido', status: 500,
code: null}`). -/
structure ApiError where
  message : String
  status : Nat
  code : Option String := none
  details : Option FastDetail := none
deriving Repr, DecidableEq

/-- The state held by the `useTodos` hook. -/
structure HookState where
  todos : List Todo
  loading : Bool
  error : Option String
  total : Nat
  totalPages : Nat
  currentPage : Nat
  filters : Filters
deriving Repr, DecidableEq

/-- One run of `fetchTodos`, given the backend's reply to `GET /todos` (an
`ApiError` when the request failed).  `now` is the timestamp fallback and
`pageSize` the hook's page size.  On success the displayed list, total and
page count are rebuilt from the response; on failure only `error` is set
(`err.message || 'Error al cargar los todos'`) and `loading` cleared. -/
def fetchTodosStep (now : String) (pageSize : Nat) (s : HookState)
    (response : Except ApiError (List RawTodo)) : HookState :=
  let s := { s with loading := true, error := none }
  match response with
  | .ok data =>
      let transformed := data.map (transformTodo now)
      let (paginated, total, totalPages) :=
        fetchTodosCompute transformed s.filters s.currentPage pageSize
      { s with todos := paginated, total := total, totalPages := totalPages
               loading := false }
  | .error err =>
      { s with
          error := some (if err.message = "" then "Error al cargar los todos" else err.message)
          loading := false }

/-- The state logic shared by the hook's `createTodo`, `updateTodo`,
`deleteTodo` and `toggleTodo`: call the service (first argument is its
outcome), and if it succeeded re-run `fetchTodos` against the backend's new
reply; if the service call failed the error is re-thrown and no state
changes. -/
def mutateThenRefetch (now : String) (pageSize : Nat) (s : HookState)
    (mutation : Except ApiError Unit)
    (refetch : Except ApiError (List RawTodo)) : HookState :=
  match mutation with
  | .error _ => s
  | .ok _ => fetchTodosStep now pageSize s refetch

/-- The hook's `createTodo`: service call, then full refetch. -/
def createTodoHook (now : String) (pageSize : Nat) (s : HookState)
    (mutation : Except ApiError Unit)
    (refetch : Except ApiError (List RawTodo)) : HookState :=
  mutateThenRefetch now pageSize s mutation refetch

/-- The hook's `updateTodo`: service call, then full refetch. -/
def updateTodoHook (now : String) (pageSize : Nat) (s : HookState)
    (mutation : Except ApiError Unit)
    (refetch : Except ApiError (List RawTodo)) : HookState :=
  mutateThenRefetch now pageSize s mutation refetch

/-- The hook's `deleteTodo`: service call, then full refetch. -/
def deleteTodoHook (now : String) (pageSize : Nat) (s : HookState)
    (mutation : Except ApiError Unit)
    (refetch : Except ApiError (List RawTodo)) : HookState :=
  mutateThenRefetch now pageSize s mutation refetch

/-- The hook's `toggleTodo`: service call, then full refetch. -/
def toggleTodoHook (now : String) (pageSize : Nat) (s : HookState)
    (mutation : Except ApiError Unit)
    (refetch : Except ApiError (List RawTodo)) : HookState :=
  mutateThenRefetch now pageSize s mutation refetch

/-- JS `a || b` for a possibly-absent string `a` with string default `b`:
`b` when `a` is absent or empty. -/
def jsOrStr (a : Option String) (b : String) : String :=
  match a with
  | none => b
  | some s => if s = "" then b else s

/-- How the 422 branch renders one FastAPI validation error:
`` `${err.loc?.join('.') || 'Campo'}: ${err.msg}` ``. -/
def fmtValErr (e : ValErr) : String :=
  let locStr := match e.loc with
    | some l => String.intercalate "." l
    | none => ""
  (if locStr = "" then "Campo" else locStr) ++ ": " ++ e.msg

/-- The failure the axios response interceptor receives: the server
responded with an error status (with its body and the error's own message),
or the request went out and nothing came back (`error.request`), or the
request could not even be set up. -/
inductive AxiosFailure
  | response (status : Nat) (data : Option ErrData) (emsg : Option String)
  | noResponse
  | setup (emsg : Option String)
deriving Repr, DecidableEq

/-- The `apiService` response interceptor's error normalization: starting
from `{message: 'Error desconocido', status: 500, code: null}`, branch on
404 / 422 / 5xx / other HTTP status when the server responded, on a network
error when it did not, and on the error's own message otherwise. -/
def normalizeError : AxiosFailure → ApiError
  | .response status data emsg =>
      if status = 404 then
        { message := "Todo no encontrado", status := 404 }
      else if status = 422 then
        let base : ApiError :=
          { message := "Datos inválidos", status := 422, code := some "VALIDATION_ERROR" }
        match data.bind ErrData.detail with
        | some (.inl arr) =>
            { base with details := some (.inl arr)
                        message := String.intercalate ", " (arr.map fmtValErr) }
        | some (.inr s) =>
            if s = "" then base
            else { base with details := some (.inr s), message := s }
        | none => base
      else if 500 ≤ status then
        { message := "Error del servidor", status := status }
      else
        { message := jsOrStr (data.bind ErrData.message) (jsOrStr emsg "Error en la petición")
          status := status }
  | .noResponse =>
      { message := "Error de conexión. Verifica que el servidor esté ejecutándose en http://localhost:8000"
        status := 0
        code := some "NETWORK_ERROR" }
  | .setup emsg =>
      { message := jsOrStr emsg "Error inesperado", status := 500 }

/-- An outgoing axios request configuration as the client builds it. -/
structure RequestConfig where
  method : Method
  url : String
  body : Option TodoPayload := none
  contentType : String := "application/json"
  authorization : Option String := none
deriving Repr, DecidableEq

/-- The configuration `apiService`'s `get`/`post`/`put`/`patch`/`delete`
methods create: base headers only (`Content-Type: application/json`), no
`Authorization`. -/
def mkConfig (m : Method) (url : String) (body : Option TodoPayload) : RequestConfig :=
  { method := m, url := url, body := body }

/-- The axios request interceptor: read `localStorage.getItem('token')`; if
it is truthy, set the `Authorization` header to `Bearer <token>`; return
the configuration. -/
def requestInterceptor (token : Option String) (config : RequestConfig) : RequestConfig :=
  if jsTruthy token then
    { config with authorization := some ("Bearer " ++ token.getD "") }
  else config

/-- `dateUtils.formatRelativeDateFromAPI`, abstracted over the JS `Date`
parser (`none` models an Invalid Date) and over `formatDistance` against
the current time.  An absent/empty date yields `''`; a string not ending in
`'Z'` gets `'Z'` appended before parsing; an unparseable date yields `''`. -/
def formatRelativeDateFromAPI (parseDate : List Char → Option Int)
    (fmtDistance : Int → String) (date : String) : String :=
  if date = "" then ""
  else
    let utcDateString :=
      if date.data.getLast? = some 'Z' then date.data else date.data ++ ['Z']
    match parseDate utcDateString with
    | none => ""
    | some t => fmtDistance t

/-- An entry of the `Pagination` component's visible-page list: a page
number button or a `'...'` separator. -/
inductive PageItem
  | page (n : Nat)
  | dots
deriving Repr, DecidableEq

/-- The `[1, '...']` / `[1]` prefix `getVisiblePages` starts from. -/
def visibleLeft (currentPage : Nat) : List PageItem :=
  if currentPage - 2 > 2 then [.page 1, .dots] else [.page 1]

/-- The central page range of `getVisiblePages`:
`max(2, currentPage-2) .. min(totalPages-1, currentPage+2)`. -/
def visibleMid (currentPage totalPages : Nat) : List PageItem :=
  let lo := max 2 (currentPage - 2)
  let hi := min (totalPages - 1) (currentPage + 2)
  (List.range' lo (hi + 1 - lo)).map PageItem.page

/-- The `['...', totalPages]` / `[totalPages]` / `[]` suffix of
`getVisiblePages`. -/
def visibleRight (currentPage totalPages : Nat) : List PageItem :=
  if currentPage + 2 < totalPages - 1 then [.dots, .page totalPages]
  else if totalPages > 1 then [.page totalPages]
  else []

/-- `Pagination.getVisiblePages` for `delta = 2`: first page (with `'...'`
when the central range starts past page 2), the central range, then the
last page (with `'...'` when the range ends before `totalPages - 1`). -/
def getVisiblePages (currentPage totalPages : Nat) : List PageItem :=
  visibleLeft currentPage ++ visibleMid currentPage totalPages ++
    visibleRight currentPage totalPages

/-- The page numbers of a visible-page list, in order, `'...'` dropped. -/
def pageNumbers (l : List PageItem) : List Nat :=
  l.filterMap fun x =>
    match x with
    | PageItem.page n => some n
    | PageItem.dots => none

/-- Checks that every `'...'` of a visible-page list sits between two page
numbers that are not adjacent (`a`, then `'...'`, then `b` with `a+1 < b`). -/
def dotsOk : List PageItem → Bool
  | [] => true
  | [PageItem.page _] => true
  | PageItem.dots :: _ => false
  | [PageItem.page _, PageItem.dots] => false
  | PageItem.page a :: PageItem.dots :: PageItem.page b :: rest =>
      decide (a + 1 < b) && dotsOk (PageItem.page b :: rest)
  | PageItem.page _ :: PageItem.dots :: PageItem.dots :: _ => false
  | PageItem.page _ :: PageItem.page b :: rest => dotsOk (PageItem.page b :: rest)

/-- Spec-side restatement (for C1's refinement): a todo matches the status filter when the
status is `'completed'` and the todo is completed, `'pending'` and it is
not, or the status is `'all'`. -/
def statusMatches (status : String) (todo : Todo) : Bool :=
  if status = "completed" then todo.completed
  else if status = "pending" then !todo.completed
  else true

/-- Spec-side restatement (for C1's refinement): a todo matches the search filter when its
lowercased title or lowercased description contains the lowercased search
term. -/
def searchMatches (search : String) (todo : Todo) : Bool :=
  decide (jsLower search <:+: jsLower todo.title) ||
    decide (jsLower search <:+: jsLower todo.description)

/-- Spec-side restatement (for C1's refinement): the todos kept by first applying the status
filter and then the search filter. -/
def specFilteredTodos (filters : Filters) (todos : List Todo) : List Todo :=
  (todos.filter (statusMatches filters.status)).filter (searchMatches filters.search)

/-- Spec-side restatement (for C1's refinement): the slice of a list from index `a` (inclusive)
to index `b` (exclusive), as JS `Array.prototype.slice(a, b)`. -/
def specSlice (l : List Todo) (a b : Nat) : List Todo :=
  (l.take b).drop a

/-! ## Theorems -/

/-- C3: `validateTodo` returns `isValid = true` iff the title is present and
non-empty after trimming whitespace, the title has at most 255 characters,
and the description (when present) has at most 1024 characters; and the
errors object names exactly the violated fields. -/
theorem validateTodo_spec (td : TodoInput) :
    ((validateTodo td).isValid = true ↔
      ((∃ s, td.title = some s ∧ jsTrim s ≠ [] ∧ s.data.length ≤ 255) ∧
        ∀ d, td.description = some d → d.data.length ≤ 1024)) ∧
    ((validateTodo td).errors.title = none ↔
      (∃ s, td.title = some s ∧ jsTrim s ≠ [] ∧ s.data.length ≤ 255)) ∧
    ((validateTodo td).errors.description = none ↔
      ∀ d, td.description = some d → d.data.length ≤ 1024) := by
  obtain ⟨t, d, c⟩ := td
  have hT : (validateTodo ⟨t, d, c⟩).errors.title = none ↔
      (∃ s, t = some s ∧ jsTrim s ≠ [] ∧ s.data.length ≤ 255) := by
    cases t with
    | none => simp [validateTodo, jsTruthy, apply_ite VErrors.title]
    | some s =>
      by_cases hs : s = ""
      · subst hs
        simp [validateTodo, jsTruthy, jsTrim, apply_ite VErrors.title]
      · by_cases htrim : (jsTrim s).length = 0
        · have hnil : jsTrim s = [] := List.length_eq_zero.mp htrim
          by_cases hlen : s.data.length > 255 <;>
            simp [validateTodo, jsTruthy, hs, htrim, hlen, hnil, apply_ite VErrors.title] <;>
              split <;> simp
        · have hnil : jsTrim s ≠ [] := by
            intro h
            exact htrim (by simp [h])
          by_cases hlen : s.data.length > 255 <;>
            simp [validateTodo, jsTruthy, hs, htrim, hlen, hnil, apply_ite VErrors.title]
  have hD : (validateTodo ⟨t, d, c⟩).errors.description = none ↔
      (∀ x, d = some x → x.data.length ≤ 1024) := by
    cases d with
    | none => simp [validateTodo, jsTruthy, apply_ite VErrors.description]
    | some x =>
      by_cases hx : x = ""
      · subst hx
        by_cases h1 : !(jsTruthy t) || decide ((jsTrim (t.getD "")).length = 0) <;>
          by_cases h2 : jsTruthy t && decide ((t.getD "").data.length > 255) <;>
            simp [validateTodo, h1, h2, jsTruthy, apply_ite VErrors.description]
      · by_cases hxlen : x.data.length > 1024 <;>
          by_cases h1 : !(jsTruthy t) || decide ((jsTrim (t.getD "")).length = 0) <;>
            by_cases h2 : jsTruthy t && decide ((t.getD "").data.length > 255) <;>
              simp [validateTodo, h1, h2, hx, hxlen, jsTruthy,
                apply_ite VErrors.description]
  refine ⟨?_, hT, hD⟩
  rw [show (validateTodo ⟨t, d, c⟩).isValid =
      ((validateTodo ⟨t, d, c⟩).errors.title.isNone &&
        (validateTodo ⟨t, d, c⟩).errors.description.isNone) from rfl]
  rw [Bool.and_eq_true, Option.isNone_iff_eq_none, Option.isNone_iff_eq_none, hT, hD]

/-- C9: the payload `todoService.createTodo` sends always has
`completed = false` (whatever the caller supplied), and its description
defaults to the empty string when the caller gave none. -/
theorem createTodoPayload_spec (todo : TodoInput) :
    (createTodoPayload todo).completed = false ∧
    (∀ c, createTodoPayload { todo with completed := c } = createTodoPayload todo) ∧
    (todo.description = none → (createTodoPayload todo).description = "") ∧
    (∀ d, todo.description = some d → (createTodoPayload todo).description = d) := by
  refine ⟨rfl, fun c => rfl, fun h => ?_, fun d h => ?_⟩ <;>
    simp [createTodoPayload, h]

/-- C9 witness: instantiation at a caller that supplies `completed = true`
and no description. -/
theorem createTodoPayload_spec_witness :
    (createTodoPayload ⟨some "t", none, some true⟩).completed = false ∧
    (createTodoPayload ⟨some "t", none, some true⟩).description = "" := by
  obtain ⟨h1, -, h3, -⟩ := createTodoPayload_spec ⟨some "t", none, some true⟩
  exact ⟨h1, h3 rfl⟩

/-- C5: `createTodo` issues `POST /todos`, `updateTodo` issues
`PUT /todos/{id}`, `toggleTodo` issues a `PUT /todos/{id}` whose body
negates the fetched todo's completed flag while keeping its title and
description (and the alternative service's toggle issues
`PATCH /todos/{id}/toggle`), and `deleteTodo` issues `DELETE /todos/{id}`. -/
theorem todoService_requests_spec (todo : TodoInput) (id : Nat) (current : RawTodo) :
    (createTodoRequests todo).map (fun r => (r.method, r.url)) = [(.post, "/todos")] ∧
    (updateTodoRequests id todo).map (fun r => (r.method, r.url)) =
      [(.put, "/todos/" ++ toString id)] ∧
    ((toggleTodoRequests id current).map (fun r => (r.method, r.url)) =
        [(.get, "/todos/" ++ toString id), (.put, "/todos/" ++ toString id)] ∧
      ∃ p, (toggleTodoRequests id current).getLast?.bind Request.body = some p ∧
        p.completed = !(current.completed.getD false) ∧
        p.title = some current.title ∧
        p.description = current.description.getD "") ∧
    (toggleTodoAltRequests id).map (fun r => (r.method, r.url)) =
      [(.patch, "/todos/" ++ toString id ++ "/toggle")] ∧
    (deleteTodoRequests id).map (fun r => (r.method, r.url)) =
      [(.delete, "/todos/" ++ toString id)] := by
  refine ⟨rfl, rfl, ⟨rfl, togglePayload current, ?_, rfl, rfl, rfl⟩, rfl, rfl⟩
  rfl

/-- C2: after a mutation (`createTodo`, `updateTodo`, `deleteTodo`,
`toggleTodo`) that completes without error, the hook's displayed list,
total and page count are exactly the ones re-derived by `fetchTodos` from
the backend's fresh reply — and they do not depend on the previously held
list (no in-place patching). -/
theorem mutations_refetch_spec (now : String) (pageSize : Nat) (s : HookState)
    (data : List RawTodo) :
    ((createTodoHook now pageSize s (.ok ()) (.ok data)).todos =
        (fetchTodosCompute (data.map (transformTodo now)) s.filters s.currentPage pageSize).1 ∧
      (createTodoHook now pageSize s (.ok ()) (.ok data)).total =
        (fetchTodosCompute (data.map (transformTodo now)) s.filters s.currentPage pageSize).2.1 ∧
      (createTodoHook now pageSize s (.ok ()) (.ok data)).totalPages =
        (fetchTodosCompute (data.map (transformTodo now)) s.filters s.currentPage pageSize).2.2) ∧
    (updateTodoHook now pageSize s (.ok ()) (.ok data) =
        createTodoHook now pageSize s (.ok ()) (.ok data) ∧
      deleteTodoHook now pageSize s (.ok ()) (.ok data) =
        createTodoHook now pageSize s (.ok ()) (.ok data) ∧
      toggleTodoHook now pageSize s (.ok ()) (.ok data) =
        createTodoHook now pageSize s (.ok ()) (.ok data)) ∧
    (∀ priorTodos priorTotal priorTotalPages,
      (createTodoHook now pageSize
          { s with todos := priorTodos, total := priorTotal, totalPages := priorTotalPages }
          (.ok ()) (.ok data)).todos =
        (createTodoHook now pageSize s (.ok ()) (.ok data)).todos) := by
  refine ⟨⟨rfl, rfl, rfl⟩, ⟨rfl, rfl, rfl⟩, fun priorTodos priorTotal priorTotalPages => rfl⟩

/-- C8: when the fetch fails, the previously displayed state survives: the
todos, total and page count (and page and filters) keep their prior
values; only the error message is set and the loading flag cleared. -/
theorem fetchTodos_error_atomic (now : String) (pageSize : Nat) (s : HookState)
    (e : ApiError) :
    (fetchTodosStep now pageSize s (.error e)).todos = s.todos ∧
    (fetchTodosStep now pageSize s (.error e)).total = s.total ∧
    (fetchTodosStep now pageSize s (.error e)).totalPages = s.totalPages ∧
    (fetchTodosStep now pageSize s (.error e)).currentPage = s.currentPage ∧
    (fetchTodosStep now pageSize s (.error e)).filters = s.filters ∧
    (fetchTodosStep now pageSize s (.error e)).error =
      some (if e.message = "" then "Error al cargar los todos" else e.message) ∧
    (fetchTodosStep now pageSize s (.error e)).loading = false := by
  exact ⟨rfl, rfl, rfl, rfl, rfl, rfl, rfl⟩

/-- C6: every failure is normalized to an object with `message`, `status`
and `code`: when the server responded, `status` is the HTTP status, 404
maps to the message `'Todo no encontrado'`, 422 maps to code
`'VALIDATION_ERROR'` carrying the validation details; when no response was
received at all, `status = 0` and `code = 'NETWORK_ERROR'`. -/
theorem normalizeError_spec (status : Nat) (data : Option ErrData) (emsg : Option String) :
    ((normalizeError (.response status data emsg)).status = status ∧
      (status = 404 → (normalizeError (.response status data emsg)).message = "Todo no encontrado") ∧
      (status = 422 →
        (normalizeError (.response status data emsg)).code = some "VALIDATION_ERROR" ∧
        ∀ arr, data.bind ErrData.detail = some (Sum.inl arr) →
          (normalizeError (.response status data emsg)).details = some (Sum.inl arr))) ∧
    ((normalizeError AxiosFailure.noResponse).status = 0 ∧
      (normalizeError AxiosFailure.noResponse).code = some "NETWORK_ERROR") := by
  refine ⟨⟨?_, ?_, ?_⟩, rfl, rfl⟩
  · by_cases h404 : status = 404
    · simp [normalizeError, h404]
    · by_cases h422 : status = 422
      · rcases hdet : data.bind ErrData.detail with - | arr | str
        · simp [normalizeError, h404, h422, hdet]
        · simp [normalizeError, h404, h422, hdet]
        · by_cases hstr : str = "" <;>
            simp [normalizeError, h404, h422, hdet, hstr]
      · by_cases h5 : 500 ≤ status <;> simp [normalizeError, h404, h422, h5]
  · intro h
    subst h
    simp [normalizeError]
  · intro h
    subst h
    rcases hdet : data.bind ErrData.detail with - | arr | str
    · simp [normalizeError, hdet]
    · simp [normalizeError, hdet]
    · by_cases hstr : str = "" <;> simp [normalizeError, hdet, hstr]

/-- C7: on a request built by the API client (which never pre-sets an
`Authorization` header), the request interceptor sets
`Authorization: Bearer <token>` exactly when a token is stored, leaves the
header absent when none is, and alters nothing else in the configuration. -/
theorem requestInterceptor_spec (token : Option String) (config : RequestConfig) :
    ((requestInterceptor token config).method = config.method ∧
      (requestInterceptor token config).url = config.url ∧
      (requestInterceptor token config).body = config.body ∧
      (requestInterceptor token config).contentType = config.contentType) ∧
    (∀ t, token = some t → t ≠ "" →
      (requestInterceptor token config).authorization = some ("Bearer " ++ t)) ∧
    (token = none →
      ∀ m url body, (requestInterceptor token (mkConfig m url body)).authorization = none) := by
  refine ⟨?_, fun t ht htne => ?_, fun hnone m url body => ?_⟩
  · unfold requestInterceptor
    split <;> exact ⟨rfl, rfl, rfl, rfl⟩
  · subst ht
    simp [requestInterceptor, jsTruthy, htne]
  · subst hnone
    simp [requestInterceptor, jsTruthy, mkConfig]

/-- C4: `formatRelativeDateFromAPI` yields `''` on an empty date, parses a
string already ending in `'Z'` unchanged, appends `'Z'` before parsing a
string that does not end in `'Z'`, and yields `''` (not an error) when the
resulting string does not parse. -/
theorem formatRelativeDateFromAPI_spec (parseDate : List Char → Option Int)
    (fmtDistance : Int → String) (date : String) :
    (formatRelativeDateFromAPI parseDate fmtDistance "" = "") ∧
    (date ≠ "" → date.data.getLast? = some 'Z' →
      formatRelativeDateFromAPI parseDate fmtDistance date =
        (match parseDate date.data with
          | none => ""
          | some t => fmtDistance t)) ∧
    (date ≠ "" → date.data.getLast? ≠ some 'Z' →
      formatRelativeDateFromAPI parseDate fmtDistance date =
        (match parseDate (date.data ++ ['Z']) with
          | none => ""
          | some t => fmtDistance t)) ∧
    (date ≠ "" →
      parseDate (if date.data.getLast? = some 'Z' then date.data else date.data ++ ['Z']) = none →
      formatRelativeDateFromAPI parseDate fmtDistance date = "") := by
  refine ⟨rfl, fun hne hz => ?_, fun hne hz => ?_, fun hne hp => ?_⟩
  · simp [formatRelativeDateFromAPI, hne, hz]
  · simp [formatRelativeDateFromAPI, hne, hz]
  · by_cases hz : date.data.getLast? = some 'Z' <;>
      simp [formatRelativeDateFromAPI, hne, hz] at hp ⊢ <;> simp [hp]

/-- C4 witness: a parser that accepts only `"2025-01-01T00:00:00Z"`,
applied to the date string without the UTC suffix, to one with it, to the
empty date and to an unparseable date. -/
theorem formatRelativeDateFromAPI_spec_witness :
    formatRelativeDateFromAPI
        (fun l => if l = "2025-01-01T00:00:00Z".data then some 0 else none)
        (fun _ => "hace un instante") "2025-01-01T00:00:00" = "hace un instante" ∧
    formatRelativeDateFromAPI
        (fun l => if l = "2025-01-01T00:00:00Z".data then some 0 else none)
        (fun _ => "hace un instante") "2025-01-01T00:00:00Z" = "hace un instante" ∧
    formatRelativeDateFromAPI
        (fun l => if l = "2025-01-01T00:00:00Z".data then some 0 else none)
        (fun _ => "hace un instante") "" = "" ∧
    formatRelativeDateFromAPI
        (fun l => if l = "2025-01-01T00:00:00Z".data then some 0 else none)
        (fun _ => "hace un instante") "nonsense" = "" := by
  have h1 := formatRelativeDateFromAPI_spec
    (fun l => if l = "2025-01-01T00:00:00Z".data then some 0 else none)
    (fun _ => "hace un instante") "2025-01-01T00:00:00"
  have h2 := formatRelativeDateFromAPI_spec
    (fun l => if l = "2025-01-01T00:00:00Z".data then some 0 else none)
    (fun _ => "hace un instante") "2025-01-01T00:00:00Z"
  have h3 := formatRelativeDateFromAPI_spec
    (fun l => if l = "2025-01-01T00:00:00Z".data then some 0 else none)
    (fun _ => "hace un instante") "nonsense"
  refine ⟨?_, ?_, h1.1, ?_⟩
  · rw [h1.2.2.1 (by decide) (by decide)]
    decide
  · rw [h2.2.1 (by decide) (by decide)]
    decide
  · rw [h3.2.2.2 (by decide) (by decide)]

/-- The code's status filter agrees with the spec-side status predicate on
the three documented filter values. -/
theorem statusFilterCode_eq_spec (status : String) (todos : List Todo)
    (hst : status = "all" ∨ status = "completed" ∨ status = "pending") :
    statusFilterCode status todos = todos.filter (statusMatches status) := by
  rcases hst with h | h | h <;> subst h
  · rw [statusFilterCode, if_neg (by simp)]
    symm
    apply List.filter_eq_self.mpr
    intro a _
    simp [statusMatches]
  · rw [statusFilterCode, if_pos (by simp)]
    apply List.filter_congr
    intro t _
    simp [statusMatches]
  · rw [statusFilterCode, if_pos (by simp)]
    apply List.filter_congr
    intro t _
    simp [statusMatches]

/-- The code's search filter (with its empty-search skip and its
description-truthiness guard) agrees with the spec-side search predicate. -/
theorem searchFilterCode_eq_spec (search : String) (todos : List Todo) :
    searchFilterCode search todos = todos.filter (searchMatches search) := by
  by_cases hs : search = ""
  · subst hs
    rw [searchFilterCode, if_neg (by simp)]
    symm
    apply List.filter_eq_self.mpr
    intro a _
    simp [searchMatches, jsLower, List.nil_infix]
  · have hsd : search.data.map Char.toLower ≠ [] := by
      simp only [ne_eq, List.map_eq_nil_iff]
      intro h
      exact hs (String.ext_iff.mpr (by simpa using h))
    rw [searchFilterCode, if_pos hs]
    apply List.filter_congr
    intro t _
    by_cases hd : t.description = ""
    · simp [searchMatches, jsLower, hd, List.infix_nil, hsd]
    · simp [searchMatches, jsLower, hd]

/-- C1: the `useTodos` fetch logic displays exactly the
`[(currentPage-1)*pageSize, currentPage*pageSize)` slice of the
status-then-search filtered list, reports that list's length as the total,
and reports the ceiling of `total / pageSize` (the least page count whose
pages hold the whole filtered list) as `totalPages`. -/
theorem fetchTodos_spec (todos : List Todo) (filters : Filters)
    (currentPage pageSize : Nat) (hcp : 1 ≤ currentPage) (hps : 0 < pageSize)
    (hst : filters.status = "all" ∨ filters.status = "completed" ∨
      filters.status = "pending") :
    (fetchTodosCompute todos filters currentPage pageSize).1 =
      specSlice (specFilteredTodos filters todos)
        ((currentPage - 1) * pageSize) (currentPage * pageSize) ∧
    (fetchTodosCompute todos filters currentPage pageSize).2.1 =
      (specFilteredTodos filters todos).length ∧
    ((specFilteredTodos filters todos).length ≤
        (fetchTodosCompute todos filters currentPage pageSize).2.2 * pageSize ∧
      ∀ m, (specFilteredTodos filters todos).length ≤ m * pageSize →
        (fetchTodosCompute todos filters currentPage pageSize).2.2 ≤ m) := by
  have hfe : searchFilterCode filters.search (statusFilterCode filters.status todos) =
      specFilteredTodos filters todos := by
    rw [statusFilterCode_eq_spec _ _ hst, searchFilterCode_eq_spec]
    rfl
  have h0 : fetchTodosCompute todos filters currentPage pageSize =
      ((( specFilteredTodos filters todos).drop
          ((currentPage - 1) * pageSize)).take pageSize,
        (specFilteredTodos filters todos).length,
        ((specFilteredTodos filters todos).length + pageSize - 1) / pageSize) := by
    rw [show fetchTodosCompute todos filters currentPage pageSize =
        (((searchFilterCode filters.search (statusFilterCode filters.status todos)).drop
            ((currentPage - 1) * pageSize)).take pageSize,
          (searchFilterCode filters.search (statusFilterCode filters.status todos)).length,
          ((searchFilterCode filters.search (statusFilterCode filters.status todos)).length
            + pageSize - 1) / pageSize) from rfl, hfe]
  rw [h0]
  refine ⟨?_, rfl, ?_, ?_⟩
  · obtain ⟨k, rfl⟩ := Nat.exists_eq_add_of_le hcp
    dsimp only
    rw [Nat.add_sub_cancel_left, List.take_drop, specSlice]
    have harith : k * pageSize + pageSize = (1 + k) * pageSize := by ring
    rw [harith]
  · dsimp only
    have hA := Nat.lt_div_mul_add (a := (specFilteredTodos filters todos).length
      + pageSize - 1) hps
    generalize ((specFilteredTodos filters todos).length + pageSize - 1) / pageSize
      * pageSize = t at hA ⊢
    omega
  · intro m hm
    dsimp only
    rw [Nat.div_le_iff_le_mul_add_pred hps]
    rw [Nat.mul_comm] at hm
    generalize pageSize * m = t at hm ⊢
    omega

/-- C1 witness: the fetch logic evaluated for one concrete backend todo, the
`'all'` filter with search term `"pan"`, page 1 and page size 10. -/
theorem fetchTodos_spec_witness :
    (fetchTodosCompute
        [{ id := 1, title := "Comprar pan", description := "en el mercado",
           completed := false, createdAt := "", updatedAt := "" }]
        { status := "all", search := "pan" } 1 10).1 =
      specSlice (specFilteredTodos { status := "all", search := "pan" }
          [{ id := 1, title := "Comprar pan", description := "en el mercado",
             completed := false, createdAt := "", updatedAt := "" }])
        ((1 - 1) * 10) (1 * 10) ∧
    (fetchTodosCompute
        [{ id := 1, title := "Comprar pan", description := "en el mercado",
           completed := false, createdAt := "", updatedAt := "" }]
        { status := "all", search := "pan" } 1 10).2.1 =
      (specFilteredTodos { status := "all", search := "pan" }
          [{ id := 1, title := "Comprar pan", description := "en el mercado",
             completed := false, createdAt := "", updatedAt := "" }]).length ∧
    ((specFilteredTodos { status := "all", search := "pan" }
          [{ id := 1, title := "Comprar pan", description := "en el mercado",
             completed := false, createdAt := "", updatedAt := "" }]).length ≤
        (fetchTodosCompute
          [{ id := 1, title := "Comprar pan", description := "en el mercado",
             completed := false, createdAt := "", updatedAt := "" }]
          { status := "all", search := "pan" } 1 10).2.2 * 10 ∧
      ∀ m, (specFilteredTodos { status := "all", search := "pan" }
          [{ id := 1, title := "Comprar pan", description := "en el mercado",
             completed := false, createdAt := "", updatedAt := "" }]).length ≤ m * 10 →
        (fetchTodosCompute
          [{ id := 1, title := "Comprar pan", description := "en el mercado",
             completed := false, createdAt := "", updatedAt := "" }]
          { status := "all", search := "pan" } 1 10).2.2 ≤ m) :=
  fetchTodos_spec _ _ 1 10 (by decide) (by decide) (Or.inl rfl)

/-- A nonempty ascending range starts at its lower bound. -/
theorem range'_head_pos (s n : Nat) (h : 0 < n) :
    (List.range' s n).head? = some s := by
  cases n with
  | zero => omega
  | succ k => rw [List.range'_succ]; rfl

/-- A nonempty ascending range ends at its upper bound. -/
theorem range'_getLast_pos (s n : Nat) (h : 0 < n) :
    (List.range' s n).getLast? = some (s + n - 1) := by
  cases n with
  | zero => omega
  | succ k =>
    rw [List.range'_concat, List.getLast?_concat]
    congr 1
    omega

/-- An ascending range is strictly increasing. -/
theorem range'_chain_lt (s n : Nat) : List.Chain' (· < ·) (List.range' s n) :=
  List.chain'_iff_pairwise.mpr (List.pairwise_lt_range' s n)

/-- `pageNumbers` distributes over append. -/
theorem pageNumbers_append (l1 l2 : List PageItem) :
    pageNumbers (l1 ++ l2) = pageNumbers l1 ++ pageNumbers l2 :=
  List.filterMap_append l1 l2 _

/-- `pageNumbers` recovers the numbers of an all-pages list. -/
theorem pageNumbers_map_page (l : List Nat) :
    pageNumbers (l.map PageItem.page) = l := by
  induction l with
  | nil => rfl
  | cons a t ih =>
    rw [List.map_cons]
    rw [show pageNumbers (PageItem.page a :: t.map PageItem.page) =
      a :: pageNumbers (t.map PageItem.page) from rfl, ih]

/-- Two adjacent page buttons do not constrain `dotsOk`. -/
theorem dotsOk_cons_cons (a b : Nat) (l : List PageItem) :
    dotsOk (PageItem.page a :: PageItem.page b :: l) =
      dotsOk (PageItem.page b :: l) := by
  simp [dotsOk]

/-- `dotsOk` across a `'...'` checks that the flanking pages are
non-adjacent and continues after the gap. -/
theorem dotsOk_gap (a b : Nat) (l : List PageItem) :
    dotsOk (PageItem.page a :: PageItem.dots :: PageItem.page b :: l) =
      (decide (a + 1 < b) && dotsOk (PageItem.page b :: l)) := by
  simp [dotsOk]

/-- A list of page buttons only always satisfies `dotsOk`. -/
theorem dotsOk_map_page (l : List Nat) : dotsOk (l.map PageItem.page) = true := by
  induction l with
  | nil => rfl
  | cons a t ih =>
    cases t with
    | nil => rfl
    | cons b t2 =>
      rw [List.map_cons, List.map_cons, dotsOk_cons_cons, ← List.map_cons]
      exact ih

/-- A prefix of page buttons in front of a page button does not affect
`dotsOk`. -/
theorem dotsOk_pages_before (l : List Nat) (b : Nat) (rest : List PageItem) :
    dotsOk (l.map PageItem.page ++ PageItem.page b :: rest) =
      dotsOk (PageItem.page b :: rest) := by
  induction l with
  | nil => rfl
  | cons a t ih =>
    cases t with
    | nil =>
      simp only [List.map_cons, List.map_nil, List.nil_append, List.cons_append]
      exact dotsOk_cons_cons a b rest
    | cons c t2 =>
      simp only [List.map_cons, List.cons_append] at ih ⊢
      rw [dotsOk_cons_cons]
      exact ih

/-- A nonempty run of page buttons, then `'...'`, then the last page
satisfies `dotsOk` when the run's last number is not adjacent to the last
page. -/
theorem dotsOk_pages_dots (l : List Nat) (tp : Nat) (hne : l ≠ [])
    (hlast : ∀ x, l.getLast? = some x → x + 1 < tp) :
    dotsOk (l.map PageItem.page ++ [PageItem.dots, PageItem.page tp]) = true := by
  rcases List.eq_nil_or_concat l with h | ⟨l', a, h⟩
  · exact absurd h hne
  · subst h
    rw [List.concat_eq_append, List.map_append, List.append_assoc]
    have ha : a + 1 < tp := hlast a (by rw [List.concat_eq_append, List.getLast?_concat])
    rw [show (([a].map PageItem.page) ++ [PageItem.dots, PageItem.page tp]) =
      PageItem.page a :: [PageItem.dots, PageItem.page tp] from rfl]
    rw [dotsOk_pages_before]
    rw [show (PageItem.page a :: [PageItem.dots, PageItem.page tp]) =
      PageItem.page a :: PageItem.dots :: PageItem.page tp :: [] from rfl]
    rw [dotsOk_gap]
    simp [ha, dotsOk]

/-- C10: for every `totalPages ≥ 2` and `1 ≤ currentPage ≤ totalPages`,
the visible page list starts with page 1, ends with page `totalPages`,
contains the current page, lists its page numbers in strictly increasing
order, and places `'...'` only between non-adjacent page numbers. -/
theorem getVisiblePages_spec (currentPage totalPages : Nat)
    (htp : 2 ≤ totalPages) (hcp1 : 1 ≤ currentPage)
    (hcp2 : currentPage ≤ totalPages) :
    (getVisiblePages currentPage totalPages).head? = some (PageItem.page 1) ∧
    (getVisiblePages currentPage totalPages).getLast? =
      some (PageItem.page totalPages) ∧
    PageItem.page currentPage ∈ getVisiblePages currentPage totalPages ∧
    List.Chain' (· < ·) (pageNumbers (getVisiblePages currentPage totalPages)) ∧
    dotsOk (getVisiblePages currentPage totalPages) = true := by
  have htp1 : (1 : Nat) < totalPages := by omega
  have hleft_head : (visibleLeft currentPage).head? = some (PageItem.page 1) := by
    rw [visibleLeft]
    split <;> rfl
  have hright_last : (visibleRight currentPage totalPages).getLast? =
      some (PageItem.page totalPages) := by
    rw [visibleRight]
    split <;> first
      | rfl
      | (exfalso; omega)
  have hhead : (getVisiblePages currentPage totalPages).head? =
      some (PageItem.page 1) := by
    rw [getVisiblePages, List.append_assoc, List.head?_append, hleft_head]
    rfl
  have hlastpage : (getVisiblePages currentPage totalPages).getLast? =
      some (PageItem.page totalPages) := by
    rw [getVisiblePages, List.getLast?_append, hright_last]
    rfl
  have hmem : PageItem.page currentPage ∈ getVisiblePages currentPage totalPages := by
    rw [getVisiblePages]
    by_cases hc1 : currentPage = 1
    · subst hc1
      refine List.mem_append.mpr (Or.inl (List.mem_append.mpr (Or.inl ?_)))
      rw [visibleLeft]
      split <;> simp
    · by_cases hctp : currentPage = totalPages
      · subst hctp
        refine List.mem_append.mpr (Or.inr ?_)
        rw [visibleRight]
        split <;> first
          | simp
          | (exfalso; omega)
      · refine List.mem_append.mpr (Or.inl (List.mem_append.mpr (Or.inr ?_)))
        simp only [visibleMid, List.mem_map]
        refine ⟨currentPage, ?_, rfl⟩
        rw [List.mem_range'_1]
        omega
  have hnum : pageNumbers (getVisiblePages currentPage totalPages) =
      1 :: (List.range' (max 2 (currentPage - 2))
        (min (totalPages - 1) (currentPage + 2) + 1 - max 2 (currentPage - 2)) ++
          [totalPages]) := by
    have hL : pageNumbers (visibleLeft currentPage) = [1] := by
      rw [visibleLeft]
      split <;> rfl
    have hM : pageNumbers (visibleMid currentPage totalPages) =
        List.range' (max 2 (currentPage - 2))
          (min (totalPages - 1) (currentPage + 2) + 1 - max 2 (currentPage - 2)) := by
      rw [visibleMid]
      exact pageNumbers_map_page _
    have hR : pageNumbers (visibleRight currentPage totalPages) = [totalPages] := by
      rw [visibleRight]
      split <;> first
        | rfl
        | (exfalso; omega)
    rw [getVisiblePages, pageNumbers_append, pageNumbers_append, hL, hM, hR]
    simp
  have hchain : List.Chain' (· < ·)
      (pageNumbers (getVisiblePages currentPage totalPages)) := by
    rw [hnum, List.chain'_cons']
    constructor
    · intro y hy
      rw [List.head?_append] at hy
      by_cases hpos : 0 < min (totalPages - 1) (currentPage + 2) + 1 -
          max 2 (currentPage - 2)
      · rw [range'_head_pos _ _ hpos] at hy
        simp at hy
        omega
      · have hz : min (totalPages - 1) (currentPage + 2) + 1 -
            max 2 (currentPage - 2) = 0 := by omega
        rw [hz] at hy
        simp at hy
        omega
    · rw [List.chain'_append]
      refine ⟨range'_chain_lt _ _, List.chain'_singleton _, ?_⟩
      intro x hx y hy
      simp at hy
      by_cases hpos : 0 < min (totalPages - 1) (currentPage + 2) + 1 -
          max 2 (currentPage - 2)
      · rw [range'_getLast_pos _ _ hpos] at hx
        simp at hx
        omega
      · have hz : min (totalPages - 1) (currentPage + 2) + 1 -
            max 2 (currentPage - 2) = 0 := by omega
        rw [hz] at hx
        simp at hx
  have hdots : dotsOk (getVisiblePages currentPage totalPages) = true := by
    by_cases hld : currentPage - 2 > 2
    · by_cases hrd : currentPage + 2 < totalPages - 1
      · simp only [getVisiblePages, visibleLeft, visibleMid, visibleRight,
          gt_iff_lt, hld, hrd, if_true]
        set LO := max 2 (currentPage - 2) with hLO
        set N := min (totalPages - 1) (currentPage + 2) + 1 - LO with hN
        have hnpos : 0 < N := by omega
        have hdecomp : List.range' LO N = LO :: List.range' (LO + 1) (N - 1) := by
          conv_lhs => rw [show N = (N - 1) + 1 from by omega]
          rw [List.range'_succ]
        rw [hdecomp]
        rw [show (([PageItem.page 1, PageItem.dots] ++
            ((LO :: List.range' (LO + 1) (N - 1)).map PageItem.page)) ++
              [PageItem.dots, PageItem.page totalPages]) =
          PageItem.page 1 :: PageItem.dots :: PageItem.page LO ::
            ((List.range' (LO + 1) (N - 1)).map PageItem.page ++
              [PageItem.dots, PageItem.page totalPages]) from by simp]
        rw [dotsOk_gap]
        rw [show (PageItem.page LO ::
            ((List.range' (LO + 1) (N - 1)).map PageItem.page ++
              [PageItem.dots, PageItem.page totalPages])) =
          ((LO :: List.range' (LO + 1) (N - 1)).map PageItem.page ++
            [PageItem.dots, PageItem.page totalPages]) from by simp]
        rw [← hdecomp]
        rw [dotsOk_pages_dots (List.range' LO N) totalPages
          (by simp [List.range'_eq_nil]; omega)
          (fun x hx => by
            rw [range'_getLast_pos _ _ hnpos] at hx
            simp at hx
            omega)]
        simp
        omega
      · simp only [getVisiblePages, visibleLeft, visibleMid, visibleRight,
          gt_iff_lt, hld, hrd, htp1, if_true, if_false]
        set LO := max 2 (currentPage - 2) with hLO
        set N := min (totalPages - 1) (currentPage + 2) + 1 - LO with hN
        have hnpos : 0 < N := by omega
        have hdecomp : List.range' LO N = LO :: List.range' (LO + 1) (N - 1) := by
          conv_lhs => rw [show N = (N - 1) + 1 from by omega]
          rw [List.range'_succ]
        rw [hdecomp]
        rw [show (([PageItem.page 1, PageItem.dots] ++
            ((LO :: List.range' (LO + 1) (N - 1)).map PageItem.page)) ++
              [PageItem.page totalPages]) =
          PageItem.page 1 :: PageItem.dots :: PageItem.page LO ::
            ((List.range' (LO + 1) (N - 1)).map PageItem.page ++
              [PageItem.page totalPages]) from by simp]
        rw [dotsOk_gap]
        rw [show (PageItem.page LO ::
            ((List.range' (LO + 1) (N - 1)).map PageItem.page ++
              [PageItem.page totalPages])) =
          (((LO :: List.range' (LO + 1) (N - 1)) ++ [totalPages]).map PageItem.page)
            from by simp]
        rw [dotsOk_map_page]
        simp
        omega
    · by_cases hrd : currentPage + 2 < totalPages - 1
      · simp only [getVisiblePages, visibleLeft, visibleMid, visibleRight,
          gt_iff_lt, hld, hrd, if_true, if_false]
        set LO := max 2 (currentPage - 2) with hLO
        set N := min (totalPages - 1) (currentPage + 2) + 1 - LO with hN
        have hnpos : 0 < N := by omega
        rw [show (([PageItem.page 1] ++ ((List.range' LO N).map PageItem.page)) ++
              [PageItem.dots, PageItem.page totalPages]) =
          ((1 :: List.range' LO N).map PageItem.page ++
            [PageItem.dots, PageItem.page totalPages]) from by simp]
        apply dotsOk_pages_dots
        · simp
        · intro x hx
          rw [show ((1 : Nat) :: List.range' LO N) = [1] ++ List.range' LO N
            from rfl, List.getLast?_append, range'_getLast_pos _ _ hnpos] at hx
          simp at hx
          omega
      · simp only [getVisiblePages, visibleLeft, visibleMid, visibleRight,
          gt_iff_lt, hld, hrd, htp1, if_true, if_false]
        set LO := max 2 (currentPage - 2) with hLO
        set N := min (totalPages - 1) (currentPage + 2) + 1 - LO with hN
        rw [show (([PageItem.page 1] ++ ((List.range' LO N).map PageItem.page)) ++
              [PageItem.page totalPages]) =
          (((1 :: List.range' LO N) ++ [totalPages]).map PageItem.page)
            from by simp]
        exact dotsOk_map_page _
  exact ⟨hhead, hlastpage, hmem, hchain, hdots⟩

/-- C10 witness: the visible-page invariants evaluated at page 5 of 10. -/
theorem getVisiblePages_spec_witness :
    (getVisiblePages 5 10).head? = some (PageItem.page 1) ∧
    (getVisiblePages 5 10).getLast? = some (PageItem.page 10) ∧
    PageItem.page 5 ∈ getVisiblePages 5 10 ∧
    List.Chain' (· < ·) (pageNumbers (getVisiblePages 5 10)) ∧
    dotsOk (getVisiblePages 5 10) = true :=
  getVisiblePages_spec 5 10 (by decide) (by decide) (by decide)
